import Mathlib

/-!
Verification development for the terminal control layer in `src/sys/other.rs`
(the general, non-Redox backend of the tanmatsu repository).

The data model types (`Point`, `Size`, `Color`, the event model, the
`Terminal` struct) live outside `src/sys/other.rs`; they are modelled from
the specification, which states their shapes exactly.  The raw-event and
command types of the external `crossterm` crate are modelled from the shapes
the source matches on.  All translation and output logic is embedded
directly from `src/sys/other.rs`.
-/

namespace Tanmatsu

/-- Modelled from the spec: `Point {x: u16, y: u16}` — zero-based terminal
cell coordinate (defined in `util.rs`, outside `src/`). -/
structure Point where
  x : Nat
  y : Nat
deriving DecidableEq, Repr

/-- Modelled from the spec: `Size {width: u16, height: u16}` — terminal
dimensions in cells (defined in `util.rs`, outside `src/`). -/
structure Size where
  width : Nat
  height : Nat
deriving DecidableEq, Repr

/-- Modelled from the spec: the `Color` sum type — 16 named basic colors,
an 8-bit indexed byte, or an RGB triple (defined in `util.rs`, outside
`src/`; variant names as matched on by `convert_color` in the source). -/
inductive Color where
  | Black | DarkGray | Red | DarkRed | Green | DarkGreen
  | Yellow | DarkYellow | Blue | DarkBlue | Magenta | DarkMagenta
  | Cyan | DarkCyan | White | Gray
  | Rgb (r g b : Nat)
  | Byte (rgb : Nat)
deriving DecidableEq, Repr

/-- Modelled from the spec: the enumerated key modifier (currently only
Control); defined in `event.rs`, outside `src/`. -/
inductive KeyModifier where
  | Control
deriving DecidableEq, Repr

/-- Modelled from the spec: the normalized `KeyEvent` sum type (defined in
`event.rs`, outside `src/`; variants as constructed by `read_event`). -/
inductive KeyEvent where
  | Char (ch : Char) (m : Option KeyModifier)
  | Left | Right | Up | Down | Tab | Enter
  | F (number : Nat)
  | Backspace (m : Option KeyModifier)
  | Esc
deriving DecidableEq, Repr

/-- Modelled from the spec: the normalized mouse button set (defined in
`event.rs`, outside `src/`). -/
inductive MouseButton where
  | Left | Middle | Right
deriving DecidableEq, Repr

/-- Modelled from the spec: the normalized mouse event kind (defined in
`event.rs`, outside `src/`; variants as constructed by `read_event`). -/
inductive MouseEventKind where
  | Move
  | Drag (b : MouseButton)
  | Press (b : MouseButton)
  | Release (b : MouseButton)
  | ScrollUp
  | ScrollDown
deriving DecidableEq, Repr

/-- Modelled from the spec: `MouseEvent {kind, point}` (defined in
`event.rs`, outside `src/`). -/
structure MouseEvent where
  kind : MouseEventKind
  point : Point
deriving DecidableEq, Repr

/-- Modelled from the spec: the top-level normalized `Event` sum type;
`Resize` carries no payload (defined in `event.rs`, outside `src/`). -/
inductive Event where
  | Key (e : KeyEvent)
  | Mouse (e : MouseEvent)
  | Resize
deriving DecidableEq, Repr

/-! ## The raw (crossterm) input event model

These types model the shapes of the external `crossterm` crate's event
types exactly as the source's `read_event` matches on them. -/

/-- Raw mouse button of the backend (`crossterm::event::MouseButton`). -/
inductive CMouseButton where
  | Left | Middle | Right
deriving DecidableEq, Repr

/-- Raw mouse event kind of the backend (`crossterm::event::MouseEventKind`). -/
inductive CMouseEventKind where
  | Down (b : CMouseButton)
  | Up (b : CMouseButton)
  | Drag (b : CMouseButton)
  | Moved
  | ScrollDown
  | ScrollUp
deriving DecidableEq, Repr

/-- Raw mouse event of the backend (`crossterm::event::MouseEvent`):
a kind plus a zero-based column/row position. -/
structure CMouseEvent where
  kind : CMouseEventKind
  column : Nat
  row : Nat
deriving DecidableEq, Repr

/-- Raw key code of the backend (`crossterm::event::KeyCode`).  The codes
beyond those matched by the source (`Home`, `End`, `PageUp`, `PageDown`,
`BackTab`, `Delete`, `Insert`, `Null`) fall into the source's wildcard arm. -/
inductive CKeyCode where
  | Backspace | Enter | Left | Right | Up | Down
  | Home | End | PageUp | PageDown
  | Tab | BackTab | Delete | Insert
  | F (number : Nat)
  | Char (ch : Char)
  | Null
  | Esc
deriving DecidableEq, Repr

/-- Raw key modifier bitset of the backend
(`crossterm::event::KeyModifiers`, bitflags SHIFT, CONTROL, ALT). -/
structure CKeyModifiers where
  shift : Bool
  control : Bool
  alt : Bool
deriving DecidableEq, Repr

/-- The `KeyModifiers::CONTROL` constant: exactly the CONTROL bit set. -/
def CKeyModifiers.CONTROL : CKeyModifiers := ⟨false, true, false⟩

/-- The empty modifier bitset (`KeyModifiers::NONE`). -/
def CKeyModifiers.NONE : CKeyModifiers := ⟨false, false, false⟩

/-- Raw key event of the backend (`crossterm::event::KeyEvent`). -/
structure CKeyEvent where
  code : CKeyCode
  modifiers : CKeyModifiers
deriving DecidableEq, Repr

/-- Raw event of the backend (`crossterm::event::Event`): key, mouse, or a
resize carrying the new width and height. -/
inductive CEvent where
  | Key (e : CKeyEvent)
  | Mouse (e : CMouseEvent)
  | Resize (width height : Nat)
deriving DecidableEq, Repr

/-! ## The crossterm structured command model and the output sink -/

/-- Clear type of the backend (`crossterm::terminal::ClearType`), as used by
the source. -/
inductive ClearType where
  | All
  | FromCursorUp
deriving DecidableEq, Repr

/-- The backend's native color type (`crossterm::style::Color`), as produced
by the source's `convert_color`. -/
inductive CColor where
  | Black | DarkGrey | Red | DarkRed | Green | DarkGreen
  | Yellow | DarkYellow | Blue | DarkBlue | Magenta | DarkMagenta
  | Cyan | DarkCyan | White | Grey
  | Rgb (r g b : Nat)
  | AnsiValue (v : Nat)
deriving DecidableEq, Repr

/-- The structured commands the source queues into the sink (each constructor
is one `crossterm` command used in `src/sys/other.rs`). -/
inductive Command where
  | EnterAlternateScreen
  | LeaveAlternateScreen
  | SetTitle (title : String)
  | EnableMouseCapture
  | DisableMouseCapture
  | Show
  | Hide
  | MoveTo (x y : Nat)
  | MoveToColumn (x : Nat)
  | MoveToRow (y : Nat)
  | MoveUp (cells : Nat)
  | MoveDown (cells : Nat)
  | MoveLeft (cells : Nat)
  | MoveRight (cells : Nat)
  | SavePosition
  | RestorePosition
  | SetForegroundColor (c : CColor)
  | SetBackgroundColor (c : CColor)
  | ResetColor
  | Clear (t : ClearType)
deriving DecidableEq, Repr

/-- One chunk delivered to the output sink: either a queued structured
command or a raw escape-sequence string. -/
inductive OutItem where
  | cmd (c : Command)
  | raw (s : String)
deriving DecidableEq, Repr

/-- Modelled from the spec: the `Terminal` object (defined in `lib.rs`,
outside `src/`) owns the output sink exclusively and the current known
`Size`.  The sink is the ordered list of chunks delivered to it. -/
structure Terminal where
  stdout : List OutItem
  size : Size
deriving DecidableEq, Repr

/-- Modelled from the spec: `Terminal::write` (defined in `lib.rs`, outside
`src/`) appends raw bytes to the owned output sink — the same sink the
structured commands are queued into. -/
def Terminal.write (t : Terminal) (s : String) : Terminal :=
  { t with stdout := t.stdout ++ [OutItem.raw s] }

/-- `crossterm::QueueableCommand::queue`: enqueues one structured command
into the same owned sink, in submission order. -/
def Terminal.queue (t : Terminal) (c : Command) : Terminal :=
  { t with stdout := t.stdout ++ [OutItem.cmd c] }

/-! ## Event translation (`read_event`, `src/sys/other.rs` lines 52–148)

The Rust `read_event` blocks on `crossterm::event::read()` and then
translates the raw event it obtained; the embedding takes that raw event as
an argument and returns the translated `Option Event` together with the
updated `Terminal` (the resize arm mutates `self.size`). -/

/-- The raw-button conversion match that the source repeats inline in the
`Drag`, `Down` and `Up` arms of `read_event`. -/
def convertMouseButton : CMouseButton → MouseButton
  | CMouseButton.Left => MouseButton.Left
  | CMouseButton.Middle => MouseButton.Middle
  | CMouseButton.Right => MouseButton.Right

/-- `Terminal::read_event` (`src/sys/other.rs`): translates one raw backend
event into zero or one normalized `Event`; the resize arm side-effects the
new `Size` into the terminal. -/
def read_event (t : Terminal) (raw : CEvent) : Option Event × Terminal :=
  match raw with
  | CEvent.Mouse e =>
    match e.kind with
    | CMouseEventKind.Moved =>
      (some (Event.Mouse { kind := MouseEventKind.Move,
                           point := { x := e.column, y := e.row } }), t)
    | CMouseEventKind.Drag button =>
      (some (Event.Mouse { kind := MouseEventKind.Drag (convertMouseButton button),
                           point := { x := e.column, y := e.row } }), t)
    | CMouseEventKind.Down button =>
      (some (Event.Mouse { kind := MouseEventKind.Press (convertMouseButton button),
                           point := { x := e.column, y := e.row } }), t)
    | CMouseEventKind.Up button =>
      (some (Event.Mouse { kind := MouseEventKind.Release (convertMouseButton button),
                           point := { x := e.column, y := e.row } }), t)
    | CMouseEventKind.ScrollUp =>
      (some (Event.Mouse { kind := MouseEventKind.ScrollUp,
                           point := { x := e.column, y := e.row } }), t)
    | CMouseEventKind.ScrollDown =>
      (some (Event.Mouse { kind := MouseEventKind.ScrollDown,
                           point := { x := e.column, y := e.row } }), t)
  | CEvent.Key { code := code, modifiers := modifiers } =>
    match code with
    | CKeyCode.Char key =>
      -- the source's guarded arm `Char('w') if modifiers == CONTROL` comes first
      if key = 'w' ∧ modifiers = CKeyModifiers.CONTROL then
        (some (Event.Key (KeyEvent.Backspace (some KeyModifier.Control))), t)
      else if modifiers = CKeyModifiers.CONTROL then
        (some (Event.Key (KeyEvent.Char key (some KeyModifier.Control))), t)
      else
        (some (Event.Key (KeyEvent.Char key none)), t)
    | CKeyCode.Left => (some (Event.Key KeyEvent.Left), t)
    | CKeyCode.Right => (some (Event.Key KeyEvent.Right), t)
    | CKeyCode.Up => (some (Event.Key KeyEvent.Up), t)
    | CKeyCode.Down => (some (Event.Key KeyEvent.Down), t)
    | CKeyCode.Tab => (some (Event.Key KeyEvent.Tab), t)
    | CKeyCode.Enter => (some (Event.Key KeyEvent.Enter), t)
    | CKeyCode.F number => (some (Event.Key (KeyEvent.F number)), t)
    | CKeyCode.Backspace => (some (Event.Key (KeyEvent.Backspace none)), t)
    | CKeyCode.Esc => (some (Event.Key KeyEvent.Esc), t)
    | _ => (none, t)
  | CEvent.Resize width height =>
    (some Event.Resize, { t with size := { width := width, height := height } })

/-- The key codes the source's `read_event` match names explicitly; every
other code falls to its wildcard arm and is dropped. -/
def modeledKeyCode : CKeyCode → Bool
  | CKeyCode.Char _ => true
  | CKeyCode.Left => true
  | CKeyCode.Right => true
  | CKeyCode.Up => true
  | CKeyCode.Down => true
  | CKeyCode.Tab => true
  | CKeyCode.Enter => true
  | CKeyCode.F _ => true
  | CKeyCode.Backspace => true
  | CKeyCode.Esc => true
  | _ => false

/-- `Terminal::poll_event` (`src/sys/other.rs` lines 150–156): waits up to
the timeout; `avail` is whether `crossterm::event::poll` reported an event
available before the timeout, `raw` the event then read. -/
def poll_event (t : Terminal) (avail : Bool) (raw : CEvent) : Option Event × Terminal :=
  if avail then read_event t raw else (none, t)

/-! ## Command Queue operations (`src/sys/other.rs`)

Each operation is embedded as a function on the `Terminal` state; queueing
appends the structured command, `write` appends the raw string, to the one
owned sink. -/

def enter_alternate_dimension (t : Terminal) : Terminal :=
  t.queue Command.EnterAlternateScreen

def exit_alternate_dimension (t : Terminal) : Terminal :=
  t.queue Command.LeaveAlternateScreen

def set_title (t : Terminal) (title : String) : Terminal :=
  t.queue (Command.SetTitle title)

def enable_mouse_capture (t : Terminal) : Terminal :=
  t.queue Command.EnableMouseCapture

def disable_mouse_capture (t : Terminal) : Terminal :=
  t.queue Command.DisableMouseCapture

def show_cursor (t : Terminal) : Terminal :=
  t.queue Command.Show

def hide_cursor (t : Terminal) : Terminal :=
  t.queue Command.Hide

def set_cursor (t : Terminal) (point : Point) : Terminal :=
  t.queue (Command.MoveTo point.x point.y)

def set_cursor_x (t : Terminal) (x : Nat) : Terminal :=
  t.queue (Command.MoveToColumn x)

def set_cursor_y (t : Terminal) (y : Nat) : Terminal :=
  t.queue (Command.MoveToRow y)

def move_cursor_up_by (t : Terminal) (cells : Nat) : Terminal :=
  t.queue (Command.MoveUp cells)

def move_cursor_down_by (t : Terminal) (cells : Nat) : Terminal :=
  t.queue (Command.MoveDown cells)

def move_cursor_left_by (t : Terminal) (cells : Nat) : Terminal :=
  t.queue (Command.MoveLeft cells)

def move_cursor_right_by (t : Terminal) (cells : Nat) : Terminal :=
  t.queue (Command.MoveRight cells)

/-! The `#[cfg(not(target_os = "windows"))]` build of the single-cell cursor
moves: raw ANSI escape sequences written directly. -/

namespace NonWindows

def move_cursor_up (t : Terminal) : Terminal :=
  t.write "\x1b[A"

def move_cursor_down (t : Terminal) : Terminal :=
  t.write "\x1b[B"

def move_cursor_left (t : Terminal) : Terminal :=
  t.write "\x1b[D"

def move_cursor_right (t : Terminal) : Terminal :=
  t.write "\x1b[C"

end NonWindows

/-! The `#[cfg(target_os = "windows")]` build of the single-cell cursor
moves: relative move by 1 through the structured path. -/

namespace Windows

def move_cursor_up (t : Terminal) : Terminal :=
  move_cursor_up_by t 1

def move_cursor_down (t : Terminal) : Terminal :=
  move_cursor_down_by t 1

def move_cursor_left (t : Terminal) : Terminal :=
  move_cursor_left_by t 1

def move_cursor_right (t : Terminal) : Terminal :=
  move_cursor_right_by t 1

end Windows

def save_cursor_point (t : Terminal) : Terminal :=
  t.queue Command.SavePosition

def restore_cursor_point (t : Terminal) : Terminal :=
  t.queue Command.RestorePosition

/-- `Terminal::convert_color` (`src/sys/other.rs` lines 284–305). -/
def convert_color : Color → CColor
  | Color.Black => CColor.Black
  | Color.DarkGray => CColor.DarkGrey
  | Color.Red => CColor.Red
  | Color.DarkRed => CColor.DarkRed
  | Color.Green => CColor.Green
  | Color.DarkGreen => CColor.DarkGreen
  | Color.Yellow => CColor.Yellow
  | Color.DarkYellow => CColor.DarkYellow
  | Color.Blue => CColor.Blue
  | Color.DarkBlue => CColor.DarkBlue
  | Color.Magenta => CColor.Magenta
  | Color.DarkMagenta => CColor.DarkMagenta
  | Color.Cyan => CColor.Cyan
  | Color.DarkCyan => CColor.DarkCyan
  | Color.White => CColor.White
  | Color.Gray => CColor.Grey
  | Color.Rgb r g b => CColor.Rgb r g b
  | Color.Byte rgb => CColor.AnsiValue rgb

def set_foreground_color (t : Terminal) (color : Color) : Terminal :=
  t.queue (Command.SetForegroundColor (convert_color color))

def set_background_color (t : Terminal) (color : Color) : Terminal :=
  t.queue (Command.SetBackgroundColor (convert_color color))

def change_foreground_color (t : Terminal) (hex_color : String) : Terminal :=
  t.write ("\x1b]10;#" ++ hex_color ++ "\x07")

def reset_foreground_color (t : Terminal) : Terminal :=
  t.write "\x1b]110\x07"

def change_background_color (t : Terminal) (hex_color : String) : Terminal :=
  t.write ("\x1b]11;#" ++ hex_color ++ "\x07")

def reset_background_color (t : Terminal) : Terminal :=
  t.write "\x1b]111\x07"

def change_cursor_color (t : Terminal) (hex_color : String) : Terminal :=
  t.write ("\x1b]12;#" ++ hex_color ++ "\x07")

def reset_cursor_color (t : Terminal) : Terminal :=
  t.write "\x1b]112\x07"

/-- `crossterm::style::Attribute::Italic` displays as the SGR sequence the
crossterm crate emits for it. -/
def enable_italic (t : Terminal) : Terminal :=
  t.write "\x1b[3m"

/-- `crossterm::style::Attribute::NoItalic` displays as the SGR sequence the
crossterm crate emits for it. -/
def disable_italic (t : Terminal) : Terminal :=
  t.write "\x1b[23m"

def reset_colors (t : Terminal) : Terminal :=
  t.queue Command.ResetColor

def clear (t : Terminal) : Terminal :=
  t.queue (Command.Clear ClearType.All)

def clear_from_cursor_to_end (t : Terminal) : Terminal :=
  t.queue (Command.Clear ClearType.FromCursorUp)

/-! ## Whole-interface view

`TerminalOp` enumerates every operation of the `Terminal` object in
`src/sys/other.rs` that takes the terminal state (the static `size()` query
touches no state and has no state to mutate; `enable_raw_mode` and
`disable_raw_mode` take `&self` and act only on process-wide OS state, so
they cannot mutate any field).  `runOp` dispatches to the embedded
operations above; `win` selects the build-time single-cell-move variant. -/

inductive TerminalOp where
  | enter_alternate_dimension
  | exit_alternate_dimension
  | set_title (title : String)
  | enable_mouse_capture
  | disable_mouse_capture
  | show_cursor
  | hide_cursor
  | read_event (raw : CEvent)
  | poll_event (avail : Bool) (raw : CEvent)
  | set_cursor (point : Point)
  | set_cursor_x (x : Nat)
  | set_cursor_y (y : Nat)
  | move_cursor_up_by (cells : Nat)
  | move_cursor_down_by (cells : Nat)
  | move_cursor_left_by (cells : Nat)
  | move_cursor_right_by (cells : Nat)
  | move_cursor_up
  | move_cursor_down
  | move_cursor_left
  | move_cursor_right
  | save_cursor_point
  | restore_cursor_point
  | set_foreground_color (color : Color)
  | set_background_color (color : Color)
  | change_foreground_color (hex_color : String)
  | reset_foreground_color
  | change_background_color (hex_color : String)
  | reset_background_color
  | change_cursor_color (hex_color : String)
  | reset_cursor_color
  | enable_italic
  | disable_italic
  | reset_colors
  | clear
  | clear_from_cursor_to_end
deriving DecidableEq, Repr

/-- Runs one operation on the terminal state.  `win` is the build-time
platform selection: `true` uses the `#[cfg(target_os = "windows")]` variant
of the single-cell cursor moves, `false` the raw-escape variant. -/
def runOp (win : Bool) (t : Terminal) : TerminalOp → Terminal
  | TerminalOp.enter_alternate_dimension => enter_alternate_dimension t
  | TerminalOp.exit_alternate_dimension => exit_alternate_dimension t
  | TerminalOp.set_title title => set_title t title
  | TerminalOp.enable_mouse_capture => enable_mouse_capture t
  | TerminalOp.disable_mouse_capture => disable_mouse_capture t
  | TerminalOp.show_cursor => show_cursor t
  | TerminalOp.hide_cursor => hide_cursor t
  | TerminalOp.read_event raw => (read_event t raw).2
  | TerminalOp.poll_event avail raw => (poll_event t avail raw).2
  | TerminalOp.set_cursor point => set_cursor t point
  | TerminalOp.set_cursor_x x => set_cursor_x t x
  | TerminalOp.set_cursor_y y => set_cursor_y t y
  | TerminalOp.move_cursor_up_by cells => move_cursor_up_by t cells
  | TerminalOp.move_cursor_down_by cells => move_cursor_down_by t cells
  | TerminalOp.move_cursor_left_by cells => move_cursor_left_by t cells
  | TerminalOp.move_cursor_right_by cells => move_cursor_right_by t cells
  | TerminalOp.move_cursor_up =>
    if win then Windows.move_cursor_up t else NonWindows.move_cursor_up t
  | TerminalOp.move_cursor_down =>
    if win then Windows.move_cursor_down t else NonWindows.move_cursor_down t
  | TerminalOp.move_cursor_left =>
    if win then Windows.move_cursor_left t else NonWindows.move_cursor_left t
  | TerminalOp.move_cursor_right =>
    if win then Windows.move_cursor_right t else NonWindows.move_cursor_right t
  | TerminalOp.save_cursor_point => save_cursor_point t
  | TerminalOp.restore_cursor_point => restore_cursor_point t
  | TerminalOp.set_foreground_color color => set_foreground_color t color
  | TerminalOp.set_background_color color => set_background_color t color
  | TerminalOp.change_foreground_color hex_color => change_foreground_color t hex_color
  | TerminalOp.reset_foreground_color => reset_foreground_color t
  | TerminalOp.change_background_color hex_color => change_background_color t hex_color
  | TerminalOp.reset_background_color => reset_background_color t
  | TerminalOp.change_cursor_color hex_color => change_cursor_color t hex_color
  | TerminalOp.reset_cursor_color => reset_cursor_color t
  | TerminalOp.enable_italic => enable_italic t
  | TerminalOp.disable_italic => disable_italic t
  | TerminalOp.reset_colors => reset_colors t
  | TerminalOp.clear => clear t
  | TerminalOp.clear_from_cursor_to_end => clear_from_cursor_to_end t

/-- Runs a sequence of operations left to right (submission order). -/
def runOps (win : Bool) (t : Terminal) : List TerminalOp → Terminal
  | [] => t
  | op :: rest => runOps win (runOp win t op) rest

/-- Whether an operation is the translation of a raw resize event. -/
def isResizeOp : TerminalOp → Bool
  | TerminalOp.read_event (CEvent.Resize _ _) => true
  | TerminalOp.poll_event _ (CEvent.Resize _ _) => true
  | _ => false

/-- The chunks an operation delivers to the sink: what it appends when run
on an empty sink.  (No operation's output depends on the state.) -/
def emitted (win : Bool) (op : TerminalOp) : List OutItem :=
  (runOp win { stdout := [], size := { width := 0, height := 0 } } op).stdout

/-- Whether a raw event is a key event whose code falls into `read_event`'s
wildcard arm (the only inputs the translation drops). -/
def unrecognizedKey : CEvent → Bool
  | CEvent.Key e => !(modeledKeyCode e.code)
  | _ => false

/-! ## Helper lemmas -/

lemma read_event_snd_stdout (t : Terminal) (raw : CEvent) :
    ((read_event t raw).2).stdout = t.stdout := by
  cases raw with
  | Mouse e => cases e with | mk kind column row => cases kind <;> rfl
  | Key e =>
    cases e with
    | mk code modifiers =>
      cases code <;> first
        | rfl
        | (simp [read_event]; split_ifs <;> rfl)
  | Resize width height => rfl

lemma read_event_snd_of_ne_resize (t : Terminal) (raw : CEvent)
    (h : ∀ w hh : Nat, raw ≠ CEvent.Resize w hh) : (read_event t raw).2 = t := by
  cases raw with
  | Mouse e => cases e with | mk kind column row => cases kind <;> rfl
  | Key e =>
    cases e with
    | mk code modifiers =>
      cases code <;> first
        | rfl
        | (simp [read_event]; split_ifs <;> rfl)
  | Resize width height => exact absurd rfl (h width height)

lemma read_event_fst_ne_none (t : Terminal) (raw : CEvent)
    (h : unrecognizedKey raw = false) : (read_event t raw).1 ≠ none := by
  cases raw with
  | Mouse e => cases e with | mk kind column row => cases kind <;> simp [read_event]
  | Key e =>
    cases e with
    | mk code modifiers =>
      cases code <;> simp_all [read_event, unrecognizedKey, modeledKeyCode]
      split_ifs <;> simp
  | Resize width height => simp [read_event]

/-! ## Claims about event translation -/

/-- C2: a raw `Char('w')` key event whose modifier set is exactly CONTROL is
intercepted ahead of the generic Char-with-modifier rule and translated to
`Key (Backspace (some Control))`, never to `Key (Char 'w' (some Control))`. -/
theorem ctrl_w_translates_to_backspace_control (t : Terminal) :
    read_event t (CEvent.Key { code := CKeyCode.Char 'w',
                               modifiers := CKeyModifiers.CONTROL }) =
      (some (Event.Key (KeyEvent.Backspace (some KeyModifier.Control))), t) ∧
    (read_event t (CEvent.Key { code := CKeyCode.Char 'w',
                                modifiers := CKeyModifiers.CONTROL })).1 ≠
      some (Event.Key (KeyEvent.Char 'w' (some KeyModifier.Control))) := by
  constructor
  · simp [read_event]
  · simp [read_event]

/-- C3: any raw Char key event other than Ctrl+'w' translates to
`Key (Char key m)` where `m` is `some Control` exactly when the raw modifier
set equals CONTROL (the source compares the whole bitset), and `none`
otherwise. -/
theorem char_key_translation_reports_control_modifier (t : Terminal)
    (key : Char) (m : CKeyModifiers)
    (h : ¬(key = 'w' ∧ m = CKeyModifiers.CONTROL)) :
    read_event t (CEvent.Key { code := CKeyCode.Char key, modifiers := m }) =
      (some (Event.Key (KeyEvent.Char key
        (if m = CKeyModifiers.CONTROL then some KeyModifier.Control else none))), t) := by
  simp only [read_event, if_neg h]
  split_ifs <;> rfl

/-- Witness for C3 at `Char('a')` with CONTROL and with NONE. -/
theorem char_key_translation_witness :
    (¬('a' = 'w' ∧ CKeyModifiers.CONTROL = CKeyModifiers.CONTROL)) ∧
    read_event { stdout := [], size := { width := 0, height := 0 } }
        (CEvent.Key { code := CKeyCode.Char 'a',
                      modifiers := CKeyModifiers.CONTROL }) =
      (some (Event.Key (KeyEvent.Char 'a' (some KeyModifier.Control))),
        { stdout := [], size := { width := 0, height := 0 } }) ∧
    read_event { stdout := [], size := { width := 0, height := 0 } }
        (CEvent.Key { code := CKeyCode.Char 'a',
                      modifiers := CKeyModifiers.NONE }) =
      (some (Event.Key (KeyEvent.Char 'a' none)),
        { stdout := [], size := { width := 0, height := 0 } }) := by
  refine ⟨by decide, ?_, ?_⟩
  · have h := char_key_translation_reports_control_modifier
      { stdout := [], size := { width := 0, height := 0 } } 'a'
      CKeyModifiers.CONTROL (by decide)
    simpa using h
  · have h := char_key_translation_reports_control_modifier
      { stdout := [], size := { width := 0, height := 0 } } 'a'
      CKeyModifiers.NONE (by decide)
    simpa using h

/-- C10: the Ctrl+W remap applies only to the lowercase character; uppercase
`Char('W')` with the CONTROL modifier set goes through the generic rule and
translates to `Key (Char 'W' (some Control))`, not to Backspace. -/
theorem ctrl_uppercase_w_not_remapped (t : Terminal) :
    read_event t (CEvent.Key { code := CKeyCode.Char 'W',
                               modifiers := CKeyModifiers.CONTROL }) =
      (some (Event.Key (KeyEvent.Char 'W' (some KeyModifier.Control))), t) ∧
    (read_event t (CEvent.Key { code := CKeyCode.Char 'W',
                                modifiers := CKeyModifiers.CONTROL })).1 ≠
      some (Event.Key (KeyEvent.Backspace (some KeyModifier.Control))) := by
  constructor
  · simp [read_event]
  · simp [read_event]

/-- C4: every raw mouse event translates to a `Mouse` event with the
matching kind (Moved→Move, Drag→Drag, Down→Press, Up→Release, scrolls to
scrolls), the corresponding button, and exactly the raw column/row as the
point. -/
theorem mouse_translation_preserves_kind_and_position (t : Terminal)
    (x y : Nat) (b : CMouseButton) :
    read_event t (CEvent.Mouse { kind := CMouseEventKind.Moved, column := x, row := y }) =
      (some (Event.Mouse { kind := MouseEventKind.Move, point := { x := x, y := y } }), t) ∧
    read_event t (CEvent.Mouse { kind := CMouseEventKind.Drag b, column := x, row := y }) =
      (some (Event.Mouse { kind := MouseEventKind.Drag (convertMouseButton b),
                           point := { x := x, y := y } }), t) ∧
    read_event t (CEvent.Mouse { kind := CMouseEventKind.Down b, column := x, row := y }) =
      (some (Event.Mouse { kind := MouseEventKind.Press (convertMouseButton b),
                           point := { x := x, y := y } }), t) ∧
    read_event t (CEvent.Mouse { kind := CMouseEventKind.Up b, column := x, row := y }) =
      (some (Event.Mouse { kind := MouseEventKind.Release (convertMouseButton b),
                           point := { x := x, y := y } }), t) ∧
    read_event t (CEvent.Mouse { kind := CMouseEventKind.ScrollUp, column := x, row := y }) =
      (some (Event.Mouse { kind := MouseEventKind.ScrollUp, point := { x := x, y := y } }), t) ∧
    read_event t (CEvent.Mouse { kind := CMouseEventKind.ScrollDown, column := x, row := y }) =
      (some (Event.Mouse { kind := MouseEventKind.ScrollDown, point := { x := x, y := y } }), t) ∧
    convertMouseButton CMouseButton.Left = MouseButton.Left ∧
    convertMouseButton CMouseButton.Middle = MouseButton.Middle ∧
    convertMouseButton CMouseButton.Right = MouseButton.Right := by
  refine ⟨rfl, rfl, rfl, rfl, rfl, rfl, rfl, rfl, rfl⟩

/-- C5: a raw key event whose code is outside the modeled set yields `none`
from the translation (a total function — no error) with the terminal state,
its `Size` included, untouched; and `none` arises only from such
unrecognized key input. -/
theorem unrecognized_key_yields_none_without_mutation (t : Terminal)
    (code : CKeyCode) (m : CKeyModifiers) (raw : CEvent)
    (h1 : modeledKeyCode code = false)
    (h2 : (read_event t raw).1 = none) :
    read_event t (CEvent.Key { code := code, modifiers := m }) = (none, t) ∧
    unrecognizedKey raw = true ∧
    (read_event t raw).2 = t := by
  refine ⟨?_, ?_, ?_⟩
  · cases code <;> simp_all [read_event, modeledKeyCode]
  · by_contra hcon
    exact read_event_fst_ne_none t raw (by simpa using hcon) h2
  · apply read_event_snd_of_ne_resize
    intro w hh hresize
    rw [hresize] at h2
    simp [read_event] at h2

/-- Witness for C5 at the `Home` key code. -/
theorem unrecognized_key_witness :
    modeledKeyCode CKeyCode.Home = false ∧
    read_event { stdout := [], size := { width := 5, height := 6 } }
        (CEvent.Key { code := CKeyCode.Home, modifiers := CKeyModifiers.NONE }) =
      (none, { stdout := [], size := { width := 5, height := 6 } }) ∧
    unrecognizedKey (CEvent.Key { code := CKeyCode.Home,
                                  modifiers := CKeyModifiers.NONE }) = true := by
  have h := unrecognized_key_yields_none_without_mutation
    { stdout := [], size := { width := 5, height := 6 } }
    CKeyCode.Home CKeyModifiers.NONE
    (CEvent.Key { code := CKeyCode.Home, modifiers := CKeyModifiers.NONE })
    (by decide) (by decide)
  exact ⟨by decide, h.1, h.2.1⟩

/-- C1: the resize arm of `read_event` writes the raw dimensions into the
terminal's `Size` and yields the payload-free `Resize` event, and no other
operation of the `Terminal` mutates the `Size` field. -/
theorem resize_translation_sets_size_and_is_only_size_mutation
    (win : Bool) (t u : Terminal) (w h : Nat) (op : TerminalOp)
    (hop : isResizeOp op = false) :
    read_event t (CEvent.Resize w h) =
      (some Event.Resize, { t with size := { width := w, height := h } }) ∧
    (runOp win u op).size = u.size := by
  refine ⟨rfl, ?_⟩
  cases op
  case read_event raw =>
    have hr : (read_event u raw).2 = u := by
      apply read_event_snd_of_ne_resize
      intro w2 h2 he
      subst he
      simp [isResizeOp] at hop
    simp [runOp, hr]
  case poll_event avail raw =>
    have hr : (read_event u raw).2 = u := by
      apply read_event_snd_of_ne_resize
      intro w2 h2 he
      subst he
      simp [isResizeOp] at hop
    cases avail <;> simp [runOp, poll_event, hr]
  case move_cursor_up => cases win <;> rfl
  case move_cursor_down => cases win <;> rfl
  case move_cursor_left => cases win <;> rfl
  case move_cursor_right => cases win <;> rfl
  all_goals rfl

/-- Witness for C1: the spec's (120, 40) resize example, and size
preservation of `clear` on a terminal of size 80×24. -/
theorem resize_translation_witness :
    isResizeOp TerminalOp.clear = false ∧
    read_event { stdout := [], size := { width := 80, height := 24 } }
        (CEvent.Resize 120 40) =
      (some Event.Resize, { stdout := [], size := { width := 120, height := 40 } }) ∧
    (runOp false { stdout := [], size := { width := 80, height := 24 } }
        TerminalOp.clear).size = { width := 80, height := 24 } := by
  have h := resize_translation_sets_size_and_is_only_size_mutation
    false { stdout := [], size := { width := 80, height := 24 } }
    { stdout := [], size := { width := 80, height := 24 } }
    120 40 TerminalOp.clear (by decide)
  exact ⟨by decide, h.1, h.2⟩

/-! ## Claims about output ordering -/

lemma runOp_stdout (win : Bool) (t : Terminal) (op : TerminalOp) :
    (runOp win t op).stdout = t.stdout ++ emitted win op := by
  cases op
  case read_event raw =>
    simp [runOp, emitted, read_event_snd_stdout]
  case poll_event avail raw =>
    cases avail <;> simp [runOp, emitted, poll_event, read_event_snd_stdout]
  case move_cursor_up =>
    cases win <;>
      simp [runOp, emitted, Windows.move_cursor_up, NonWindows.move_cursor_up,
        move_cursor_up_by, Terminal.queue, Terminal.write]
  case move_cursor_down =>
    cases win <;>
      simp [runOp, emitted, Windows.move_cursor_down, NonWindows.move_cursor_down,
        move_cursor_down_by, Terminal.queue, Terminal.write]
  case move_cursor_left =>
    cases win <;>
      simp [runOp, emitted, Windows.move_cursor_left, NonWindows.move_cursor_left,
        move_cursor_left_by, Terminal.queue, Terminal.write]
  case move_cursor_right =>
    cases win <;>
      simp [runOp, emitted, Windows.move_cursor_right, NonWindows.move_cursor_right,
        move_cursor_right_by, Terminal.queue, Terminal.write]
  all_goals
    simp [runOp, emitted, Terminal.queue, Terminal.write,
      enter_alternate_dimension, exit_alternate_dimension, set_title,
      enable_mouse_capture, disable_mouse_capture, show_cursor, hide_cursor,
      set_cursor, set_cursor_x, set_cursor_y,
      move_cursor_up_by, move_cursor_down_by, move_cursor_left_by,
      move_cursor_right_by, save_cursor_point, restore_cursor_point,
      set_foreground_color, set_background_color,
      change_foreground_color, reset_foreground_color,
      change_background_color, reset_background_color,
      change_cursor_color, reset_cursor_color,
      enable_italic, disable_italic, reset_colors, clear,
      clear_from_cursor_to_end]

/-- C6: every operation appends its chunk at the end of the one owned sink,
so the chunks delivered by a sequence of operations appear in exactly the
submission order — for structured queued commands and raw escape-sequence
writes alike. -/
theorem output_delivered_in_submission_order
    (win : Bool) (t : Terminal) (op : TerminalOp) (ops : List TerminalOp) :
    (runOp win t op).stdout = t.stdout ++ emitted win op ∧
    (runOps win t ops).stdout = t.stdout ++ (ops.map (emitted win)).flatten := by
  refine ⟨runOp_stdout win t op, ?_⟩
  induction ops generalizing t with
  | nil => simp [runOps]
  | cons o rest ih => simp [runOps, ih, runOp_stdout]

/-! ## Claims about the emitted escape sequences -/

/-- C7: the OSC color operations emit bit-exact sequences —
`ESC ] 10/11/12 ; # hex BEL` for the change operations with the hex string
passed through verbatim and unvalidated, and `ESC ] 110/111/112 BEL` for the
resets. -/
theorem osc_color_sequences_bit_exact (t : Terminal) (s : String) :
    (change_foreground_color t s).stdout =
      t.stdout ++ [OutItem.raw ("\x1b]10;#" ++ s ++ "\x07")] ∧
    (change_background_color t s).stdout =
      t.stdout ++ [OutItem.raw ("\x1b]11;#" ++ s ++ "\x07")] ∧
    (change_cursor_color t s).stdout =
      t.stdout ++ [OutItem.raw ("\x1b]12;#" ++ s ++ "\x07")] ∧
    (reset_foreground_color t).stdout = t.stdout ++ [OutItem.raw "\x1b]110\x07"] ∧
    (reset_background_color t).stdout = t.stdout ++ [OutItem.raw "\x1b]111\x07"] ∧
    (reset_cursor_color t).stdout = t.stdout ++ [OutItem.raw "\x1b]112\x07"] ∧
    ("\x1b]10;#" ++ s ++ "\x07").data =
      '\x1b' :: ']' :: '1' :: '0' :: ';' :: '#' :: (s.data ++ ['\x07']) ∧
    ("\x1b]11;#" ++ s ++ "\x07").data =
      '\x1b' :: ']' :: '1' :: '1' :: ';' :: '#' :: (s.data ++ ['\x07']) ∧
    ("\x1b]12;#" ++ s ++ "\x07").data =
      '\x1b' :: ']' :: '1' :: '2' :: ';' :: '#' :: (s.data ++ ['\x07']) ∧
    "\x1b]110\x07".data = ['\x1b', ']', '1', '1', '0', '\x07'] ∧
    "\x1b]111\x07".data = ['\x1b', ']', '1', '1', '1', '\x07'] ∧
    "\x1b]112\x07".data = ['\x1b', ']', '1', '1', '2', '\x07'] := by
  refine ⟨rfl, rfl, rfl, rfl, rfl, rfl, ?_, ?_, ?_, by decide, by decide, by decide⟩ <;>
    simp [String.data_append]

/-- C8: on the non-Windows build of the general backend, the single-cell
cursor moves write exactly the raw sequences `ESC [ A`, `ESC [ B`, `ESC [ C`
and `ESC [ D` for up, down, right and left respectively. -/
theorem single_cell_moves_emit_ansi_arrows (t : Terminal) :
    (NonWindows.move_cursor_up t).stdout = t.stdout ++ [OutItem.raw "\x1b[A"] ∧
    (NonWindows.move_cursor_down t).stdout = t.stdout ++ [OutItem.raw "\x1b[B"] ∧
    (NonWindows.move_cursor_right t).stdout = t.stdout ++ [OutItem.raw "\x1b[C"] ∧
    (NonWindows.move_cursor_left t).stdout = t.stdout ++ [OutItem.raw "\x1b[D"] ∧
    "\x1b[A".data = ['\x1b', '[', 'A'] ∧
    "\x1b[B".data = ['\x1b', '[', 'B'] ∧
    "\x1b[C".data = ['\x1b', '[', 'C'] ∧
    "\x1b[D".data = ['\x1b', '[', 'D'] := by
  exact ⟨rfl, rfl, rfl, rfl, by decide, by decide, by decide, by decide⟩

/-! ## Observable cursor semantics (for the refinement claim C9)

Modelled from the spec: the observable effect of the emitted control data on
the terminal's cursor position (ECMA-48 CUU/CUD/CUF/CUB semantics, with a
one-slot saved position for save/restore), on a screen of `gw × gh` cells.
`ESC [ A`..`ESC [ D` are the one-cell forms of the same controls that the
structured `MoveUp 1`.. commands denote. -/

/-- Cursor-observable terminal state: current position and the backend's
single saved position slot. -/
structure CursorState where
  pos : Point
  saved : Point
deriving DecidableEq, Repr

/-- The cursor effect of one sink chunk.  Structured cursor commands follow
their ECMA-48 meaning; of the raw strings the layer writes, exactly
`ESC [ A/B/C/D` move the cursor (by one, clamped to the screen), while the
OSC color strings and the SGR italic toggles leave it unchanged. -/
def applyItem (gw gh : Nat) (s : CursorState) : OutItem → CursorState
  | OutItem.cmd (Command.MoveTo x y) =>
    { s with pos := { x := min x (gw - 1), y := min y (gh - 1) } }
  | OutItem.cmd (Command.MoveToColumn x) =>
    { s with pos := { x := min x (gw - 1), y := s.pos.y } }
  | OutItem.cmd (Command.MoveToRow y) =>
    { s with pos := { x := s.pos.x, y := min y (gh - 1) } }
  | OutItem.cmd (Command.MoveUp cells) =>
    { s with pos := { x := s.pos.x, y := s.pos.y - cells } }
  | OutItem.cmd (Command.MoveDown cells) =>
    { s with pos := { x := s.pos.x, y := min (s.pos.y + cells) (gh - 1) } }
  | OutItem.cmd (Command.MoveLeft cells) =>
    { s with pos := { x := s.pos.x - cells, y := s.pos.y } }
  | OutItem.cmd (Command.MoveRight cells) =>
    { s with pos := { x := min (s.pos.x + cells) (gw - 1), y := s.pos.y } }
  | OutItem.cmd Command.SavePosition => { s with saved := s.pos }
  | OutItem.cmd Command.RestorePosition => { s with pos := s.saved }
  | OutItem.cmd _ => s
  | OutItem.raw str =>
    if str = "\x1b[A" then { s with pos := { x := s.pos.x, y := s.pos.y - 1 } }
    else if str = "\x1b[B" then
      { s with pos := { x := s.pos.x, y := min (s.pos.y + 1) (gh - 1) } }
    else if str = "\x1b[C" then
      { s with pos := { x := min (s.pos.x + 1) (gw - 1), y := s.pos.y } }
    else if str = "\x1b[D" then
      { s with pos := { x := s.pos.x - 1, y := s.pos.y } }
    else s

/-- The cursor effect of a list of sink chunks, applied in delivery order. -/
def applyItems (gw gh : Nat) (s : CursorState) (items : List OutItem) : CursorState :=
  items.foldl (applyItem gw gh) s

/-- The four single-cell cursor-move operations. -/
def singleCellMoves : List TerminalOp :=
  [TerminalOp.move_cursor_up, TerminalOp.move_cursor_down,
   TerminalOp.move_cursor_left, TerminalOp.move_cursor_right]

/-- C9: for each single-cell cursor move, the non-Windows raw-escape build
and the Windows relative-move-by-1 build each append exactly one chunk to
the shared sink (so each keeps submission order relative to other queued
commands), and in any context of surrounding chunks the two builds' outputs
take every starting cursor state to the same final cursor state. -/
theorem single_cell_move_variants_observably_equivalent
    (op : TerminalOp) (t : Terminal) (gw gh : Nat) (s : CursorState)
    (pre post : List OutItem) (hop : op ∈ singleCellMoves) :
    (runOp false t op).stdout = t.stdout ++ emitted false op ∧
    (runOp true t op).stdout = t.stdout ++ emitted true op ∧
    applyItems gw gh s (pre ++ emitted false op ++ post) =
      applyItems gw gh s (pre ++ emitted true op ++ post) := by
  refine ⟨runOp_stdout false t op, runOp_stdout true t op, ?_⟩
  have key : applyItems gw gh (applyItems gw gh s pre) (emitted false op) =
      applyItems gw gh (applyItems gw gh s pre) (emitted true op) := by
    simp only [singleCellMoves, List.mem_cons, List.not_mem_nil, or_false] at hop
    rcases hop with h | h | h | h
    all_goals subst h
    all_goals
      simp [emitted, runOp, applyItems, applyItem,
        NonWindows.move_cursor_up, NonWindows.move_cursor_down,
        NonWindows.move_cursor_left, NonWindows.move_cursor_right,
        Windows.move_cursor_up, Windows.move_cursor_down,
        Windows.move_cursor_left, Windows.move_cursor_right,
        move_cursor_up_by, move_cursor_down_by, move_cursor_left_by,
        move_cursor_right_by, Terminal.queue, Terminal.write]
  calc applyItems gw gh s (pre ++ emitted false op ++ post)
      = applyItems gw gh (applyItems gw gh (applyItems gw gh s pre)
          (emitted false op)) post := by
        simp [applyItems, List.foldl_append]
    _ = applyItems gw gh (applyItems gw gh (applyItems gw gh s pre)
          (emitted true op)) post := by rw [key]
    _ = applyItems gw gh s (pre ++ emitted true op ++ post) := by
        simp [applyItems, List.foldl_append]

/-- Witness for C9 at `move_cursor_up` in a small concrete context. -/
theorem single_cell_move_variants_witness :
    TerminalOp.move_cursor_up ∈ singleCellMoves ∧
    applyItems 80 24
        { pos := { x := 3, y := 5 }, saved := { x := 0, y := 0 } }
        ([OutItem.cmd (Command.MoveTo 3 5)] ++ emitted false TerminalOp.move_cursor_up ++
          [OutItem.cmd (Command.MoveDown 2)]) =
      applyItems 80 24
        { pos := { x := 3, y := 5 }, saved := { x := 0, y := 0 } }
        ([OutItem.cmd (Command.MoveTo 3 5)] ++ emitted true TerminalOp.move_cursor_up ++
          [OutItem.cmd (Command.MoveDown 2)]) := by
  have h := single_cell_move_variants_observably_equivalent
    TerminalOp.move_cursor_up { stdout := [], size := { width := 80, height := 24 } }
    80 24 { pos := { x := 3, y := 5 }, saved := { x := 0, y := 0 } }
    [OutItem.cmd (Command.MoveTo 3 5)] [OutItem.cmd (Command.MoveDown 2)]
    (by decide)
  exact ⟨by decide, h.2.2⟩

end Tanmatsu
